import Mathlib

/-
Verification of the attribute-validation engine in
src/scripts/validate-attributes.py (Okta OIE Terraform starter).

The Python source is shallowly embedded: YAML scalar/container values become
the inductive type `Value`, attribute records (Python dicts) become
association lists `Attr`, the three growable finding lists of the
`AttributeValidator` object become the record `VState`, and statements that
can raise an uncaught Python exception (TypeError from an order comparison
of incomparable values, from hashing an unhashable value, from compiling a
non-string pattern, or from calling .lower() on a non-string) are modeled
in an `Except String` monad.  Every definition follows the corresponding
source function line by line; modeling notes are given where the Python
runtime semantics (truthiness, hashability, re.match) are spelled out.
-/

/-- A parsed YAML value as produced by yaml.safe_load: null, bool, int,
string, list, or mapping.  Floats are not needed by any claim. -/
inductive Value where
  | vNull : Value
  | vBool : Bool → Value
  | vInt : Int → Value
  | vStr : String → Value
  | vList : List Value → Value
  | vMap : List (String × Value) → Value

/-- An attribute record: a Python dict with string keys, in insertion order. -/
abbrev Attr := List (String × Value)

/-- Python `d.get(k)` on a dict: the value at the first matching key. -/
def getField (a : Attr) (k : String) : Option Value :=
  (a.find? (fun p => p.1 == k)).map (fun p => p.2)

/-- Python `k in d` on a dict. -/
def hasField (a : Attr) (k : String) : Bool :=
  a.any (fun p => p.1 == k)

/-- Python `d.get(k, default)`. -/
def getD (a : Attr) (k : String) (dflt : Value) : Value :=
  (getField a k).getD dflt

/-- Python truthiness of a value: None, False, 0, empty string, empty list
and empty mapping are falsy; everything else is truthy. -/
def truthy : Value → Bool
  | .vNull => false
  | .vBool b => b
  | .vInt n => n != 0
  | .vStr s => s != ""
  | .vList xs => !xs.isEmpty
  | .vMap m => !m.isEmpty

/-- Whether a Python value is hashable (usable in a set or as a dict key):
lists and dicts are not. -/
def hashable : Value → Bool
  | .vList _ => false
  | .vMap _ => false
  | _ => true

/-- Python `v == s` for a string literal s: only a string value can equal a
string (numbers and booleans never do). -/
def eqStr (v : Value) (s : String) : Bool :=
  match v with
  | .vStr t => t == s
  | _ => false

/-- Numeric reading of a value under Python comparison rules, where bool is
a subtype of int. -/
def numVal : Value → Option Int
  | .vInt n => some n
  | .vBool b => some (if b then 1 else 0)
  | _ => none

/-- Python `==` between two hashable (scalar) values: numbers and booleans
compare numerically, strings compare as strings, None equals None.  Only
ever applied after a hashability check, so containers never reach it. -/
def pyEqScalar (a b : Value) : Bool :=
  match a, b with
  | .vNull, .vNull => true
  | .vStr x, .vStr y => x == y
  | x, y =>
      match numVal x, numVal y with
      | some m, some n => m == n
      | _, _ => false

/-- Python `a > b` for the values the source compares (min_length and
max_length): defined for number/bool pairs and for string pairs, a
TypeError (`none`) otherwise.  Container comparisons are modeled as
incomparable; no claim exercises them. -/
def pyGT (a b : Value) : Option Bool :=
  match numVal a, numVal b with
  | some m, some n => some (decide (n < m))
  | _, _ =>
      match a, b with
      | .vStr x, .vStr y => some (decide (y < x))
      | _, _ => none

/-- Rendering of a value inside an f-string message.  Container rendering is
abbreviated: the exact text of a message never decides a claim. -/
def pyStr : Value → String
  | .vNull => "None"
  | .vBool true => "True"
  | .vBool false => "False"
  | .vInt n => toString n
  | .vStr s => s
  | .vList _ => "[list]"
  | .vMap _ => "[dict]"

/-- Python `v in S` for a set S of strings: hashing an unhashable value
raises TypeError, a hashable non-string is simply not a member. -/
def pyInStrSet (v : Value) (catalog : List String) : Except String Bool :=
  if hashable v then .ok (catalog.any (fun c => eqStr v c)) else
    .error "TypeError: unhashable type"

/-- Python `isinstance(v, list)`. -/
def isListVal : Value → Bool
  | .vList _ => true
  | _ => false

/-- Rendering of a catalog set inside a message. -/
def renderSet (l : List String) : String := String.intercalate ", " l

/-- Does `needle` occur as a prefix of `hay`? -/
def charsPrefixEq : List Char → List Char → Bool
  | [], _ => true
  | _ :: _, [] => false
  | a :: as, b :: bs => a == b && charsPrefixEq as bs

/-- Python substring test `needle in hay` on strings, over character lists. -/
def charsContains (needle : List Char) : List Char → Bool
  | [] => charsPrefixEq needle []
  | c :: rest => charsPrefixEq needle (c :: rest) || charsContains needle rest

/-- Python `s.startswith(c)` for a single character. -/
def startsWithCh (c : Char) (s : String) : Bool :=
  match s.data with
  | [] => false
  | a :: _ => a == c

/-- Python `s.endswith(c)` for a single character. -/
def endsWithCh (c : Char) (s : String) : Bool :=
  match s.data.getLast? with
  | some a => a == c
  | none => false

/-- ASCII lowercasing of one character; Python str.lower restricted to the
ASCII range, which is all the sensitive-substring check ever compares. -/
def lowerChar (c : Char) : Char :=
  if decide ('A' ≤ c) && decide (c ≤ 'Z') then Char.ofNat (c.toNat + 32) else c

/-- Reserved Okta attribute names (source lines 29-37). -/
def RESERVED_ATTRIBUTES : List String :=
  ["login", "email", "secondEmail", "firstName", "lastName",
   "middleName", "honorificPrefix", "honorificSuffix", "title",
   "displayName", "nickName", "profileUrl", "primaryPhone",
   "mobilePhone", "streetAddress", "city", "state", "zipCode",
   "countryCode", "postalAddress", "preferredLanguage", "locale",
   "timezone", "userType", "employeeNumber", "costCenter",
   "organization", "division", "department", "managerId", "manager"]

/-- Valid attribute types (source line 40). -/
def VALID_TYPES : List String :=
  ["string", "boolean", "number", "integer", "array", "object"]

/-- Valid master values (source line 43). -/
def VALID_MASTERS : List String := ["PROFILE_MASTER", "OKTA", "OVERRIDE"]

/-- Valid permission values (source line 46). -/
def VALID_PERMISSIONS : List String := ["READ_WRITE", "READ_ONLY", "HIDE"]

/-- Valid scope values (source line 49). -/
def VALID_SCOPES : List String := ["NONE", "SELF", "GROUP"]

/-- Valid unique values (source line 52). -/
def VALID_UNIQUE : List String := ["UNIQUE_VALIDATED", "NOT_UNIQUE"]

/-- The validator state: the three append-only finding lists held on the
`AttributeValidator` object (source lines 58-60). -/
structure VState where
  errors : List String
  warnings : List String
  info : List String
  deriving Repr, DecidableEq

/-- `self.errors.append m`. -/
def VState.addError (s : VState) (m : String) : VState :=
  ⟨s.errors ++ [m], s.warnings, s.info⟩

/-- `self.warnings.append m`. -/
def VState.addWarning (s : VState) (m : String) : VState :=
  ⟨s.errors, s.warnings ++ [m], s.info⟩

/-- `self.info.append m`. -/
def VState.addInfo (s : VState) (m : String) : VState :=
  ⟨s.errors, s.warnings, s.info ++ [m]⟩

/-- A freshly constructed validator (all finding lists empty). -/
def vEmpty : VState := ⟨[], [], []⟩

/-- Concatenation of validator states, list-pointwise.  Used to express
that the evaluator only ever appends findings. -/
def vappend (a b : VState) : VState :=
  ⟨a.errors ++ b.errors, a.warnings ++ b.warnings, a.info ++ b.info⟩

/-- Lowercase ASCII letter, the character class `[a-z]`. -/
def isLowerAZ (c : Char) : Bool := decide ('a' ≤ c) && decide (c ≤ 'z')

/-- ASCII digit, the character class `[0-9]`. -/
def isDigitCh (c : Char) : Bool := decide ('0' ≤ c) && decide (c ≤ '9')

/-- The character class `[a-z0-9_]` of the naming pattern. -/
def isWordCh (c : Char) : Bool := isLowerAZ c || isDigitCh c || c == '_'

/-- The newline character. -/
def nlChar : Char := Char.ofNat 10

/-- Python re `$` assertion: succeeds at the end of the string, or just
before a single trailing newline. -/
def dollarOk : List Char → Bool
  | [] => true
  | [c] => c == nlChar
  | _ :: _ :: _ => false

/-- Backtracking acceptance of the tail `[a-z0-9_]{1,49}$` of the naming
regex after `k` class characters have already been consumed: either stop
here (at least one consumed, `$` holds) or, below the quantifier bound,
consume one more class character. -/
def reNameTail : List Char → Nat → Bool
  | cs, k =>
      (decide (1 ≤ k) && dollarOk cs) ||
        (match cs with
         | [] => false
         | c :: rest => decide (k < 49) && isWordCh c && reNameTail rest (k + 1))

/-- Python `re.match(r'^[a-z][a-z0-9_]{1,49}$', name)` viewed as a Boolean
(source line 84), with the exact backtracking semantics of the `re`
module, in particular `$` accepting before a single trailing newline. -/
def pyNameMatch (s : String) : Bool :=
  match s.data with
  | [] => false
  | c :: rest => isLowerAZ c && reNameTail rest 0

/-- The naming pattern read as the spec words it: total length 2 to 50, a
lowercase letter followed by 1 to 49 lowercase letters, digits or
underscores, nothing else.  Second definition for the refinement claim C8,
to be compared with the re.match semantics `pyNameMatch` of the source. -/
def specNameMatchL : List Char → Bool
  | [] => false
  | c :: rest =>
      isLowerAZ c && decide (1 ≤ rest.length) && decide (rest.length ≤ 49)
        && rest.all isWordCh

/-- `specNameMatchL` on strings. -/
def specNameMatch (s : String) : Bool := specNameMatchL s.data

/-- Parenthesis balance check used by `reCompileOk`. -/
def parenBalanced : List Char → Nat → Bool
  | [], d => d == 0
  | c :: rest, d =>
      if c == '(' then parenBalanced rest (d + 1)
      else if c == ')' then (if d == 0 then false else parenBalanced rest (d - 1))
      else parenBalanced rest d

/-- Abstraction of the external regex compiler applied to a STRING pattern
(the spec treats the parser and regex engine as external collaborators):
a total validity predicate, here parenthesis balance.  No settled claim
depends on which string patterns compile; the claims only depend on the
fact that a failing STRING pattern raises re.error, which the source
catches, while a NON-STRING pattern raises TypeError, which it does not. -/
def reCompileOk (p : String) : Bool := parenBalanced p.data 0

/-- Naming-convention error message (source lines 85-88). -/
def namingMsg (nm : String) : String :=
  "Attribute " ++ nm ++
    " does not follow naming convention (lowercase letters, numbers, underscores, 2-50 chars)"

/-- `AttributeValidator.validate_attribute_name` (source lines 77-95).
The reserved-name set membership hashes the value (TypeError when
unhashable); `re.match` raises TypeError on a non-string name. -/
def validate_attribute_name (name : Value) (s : VState) : Except String VState :=
  match pyInStrSet name RESERVED_ATTRIBUTES with
  | .error e => .error e
  | .ok reserved =>
    let s := if reserved then
        s.addWarning ("Attribute " ++ pyStr name ++ " uses a reserved Okta attribute name")
      else s
    match name with
    | .vStr nm =>
      let s := if pyNameMatch nm then s else s.addError (namingMsg nm)
      let s := if startsWithCh '_' nm || endsWithCh '_' nm then
          s.addWarning ("Attribute " ++ nm ++ " starts or ends with underscore")
        else s
      let s := if charsContains ['_', '_'] nm.data then
          s.addWarning ("Attribute " ++ nm ++ " contains double underscores")
        else s
      .ok s
    | _ => .error "TypeError: expected string or bytes-like object"

/-- One optional enumerated-field check of `validate_attribute` (the
identical blocks at source lines 121-151 for master, permissions, scope
and unique): a falsy value (in particular an absent field, read as None)
is skipped; a truthy value is hashed (TypeError when unhashable) and, when
not in the catalog, recorded as exactly one ERROR. -/
def checkCatalogField (attr : Attr) (key : String) (catalog : List String)
    (mk : Value → String) (s : VState) : Except String VState :=
  let v := getD attr key .vNull
  if truthy v then
    match pyInStrSet v catalog with
    | .error e => .error e
    | .ok member => .ok (if member then s else s.addError (mk v))
  else .ok s

/-- Invalid-master message (source lines 124-127). -/
def masterMsg (name v : Value) : String :=
  "Attribute " ++ pyStr name ++ " has invalid master " ++ pyStr v ++
    ". Valid values: " ++ renderSet VALID_MASTERS

/-- Invalid-permissions message (source lines 132-135). -/
def permsMsg (name v : Value) : String :=
  "Attribute " ++ pyStr name ++ " has invalid permissions " ++ pyStr v ++
    ". Valid values: " ++ renderSet VALID_PERMISSIONS

/-- Invalid-scope message (source lines 140-143). -/
def scopeMsg (name v : Value) : String :=
  "Attribute " ++ pyStr name ++ " has invalid scope " ++ pyStr v ++
    ". Valid values: " ++ renderSet VALID_SCOPES

/-- Invalid-unique message (source lines 148-151). -/
def uniqueMsg (name v : Value) : String :=
  "Attribute " ++ pyStr name ++ " has invalid unique value " ++ pyStr v ++
    ". Valid values: " ++ renderSet VALID_UNIQUE

/-- The warning loop shared by the boolean and number/integer branches of
`validate_type_specific` (source lines 198-214): one WARNING per
string-oriented property present on the record. -/
def stringPropWarnLoop (name : Value) (tname : String) (attr : Attr) :
    List String → VState → VState
  | [], s => s
  | p :: rest, s =>
      stringPropWarnLoop name tname attr rest
        (if hasField attr p then
          s.addWarning ("Attribute " ++ pyStr name ++ " is " ++ tname ++
            " but has " ++ p ++ " property")
        else s)

/-- `AttributeValidator.validate_type_specific` (source lines 159-214).
The min/max comparison uses Python `>` (TypeError across incomparable
types, uncaught); `re.compile` on a non-string pattern raises TypeError
(uncaught), while an invalid string pattern raises re.error, which the
source catches and converts to an ERROR. -/
def validate_type_specific (name : Value) (attr : Attr) (s : VState) :
    Except String VState :=
  let t := getD attr "type" .vNull
  if eqStr t "string" then
    let r1 : Except String VState :=
      if hasField attr "min_length" && hasField attr "max_length" then
        match pyGT (getD attr "min_length" .vNull) (getD attr "max_length" .vNull) with
        | none => .error "TypeError: unorderable comparison of min_length and max_length"
        | some true => .ok (s.addError ("Attribute " ++ pyStr name ++
            " has min_length (" ++ pyStr (getD attr "min_length" .vNull) ++
            ") greater than max_length (" ++ pyStr (getD attr "max_length" .vNull) ++ ")"))
        | some false => .ok s
      else .ok s
    match r1 with
    | .error e => .error e
    | .ok s =>
      let r2 : Except String VState :=
        if hasField attr "pattern" then
          match getD attr "pattern" .vNull with
          | .vStr p =>
              .ok (if reCompileOk p then s
                else s.addError ("Attribute " ++ pyStr name ++ " has invalid regex pattern"))
          | _ => .error "TypeError: first argument must be string or compiled pattern"
        else .ok s
      match r2 with
      | .error e => .error e
      | .ok s =>
          .ok (if hasField attr "enum" && !isListVal (getD attr "enum" .vNull) then
              s.addError ("Attribute " ++ pyStr name ++ " enum must be a list")
            else s)
  else if eqStr t "array" then
    let s := if hasField attr "array_type" then s
      else s.addError ("Attribute " ++ pyStr name ++
        " has type array but missing array_type")
    .ok (if hasField attr "array_enum" && !isListVal (getD attr "array_enum" .vNull) then
        s.addError ("Attribute " ++ pyStr name ++ " array_enum must be a list")
      else s)
  else if eqStr t "boolean" then
    .ok (stringPropWarnLoop name "boolean" attr
      ["pattern", "min_length", "max_length", "enum"] s)
  else if eqStr t "number" || eqStr t "integer" then
    .ok (stringPropWarnLoop name (pyStr t) attr
      ["pattern", "min_length", "max_length", "enum"] s)
  else .ok s

/-- The sensitive-name substrings (source line 234). -/
def sensitiveSubstrings : List String :=
  ["password", "secret", "token", "key", "credential"]

/-- `AttributeValidator.check_best_practices` (source lines 216-248).
`name.lower()` raises AttributeError on a non-string name (after the
first three checks already appended their findings). -/
def check_best_practices (name : Value) (attr : Attr) (s : VState) :
    Except String VState :=
  let s := if hasField attr "description" then s
    else s.addWarning ("Attribute " ++ pyStr name ++ " missing description")
  let s := if hasField attr "display_name" then s
    else s.addInfo ("Attribute " ++ pyStr name ++ " missing display_name")
  let s := if eqStr (getD attr "master" .vNull) "OVERRIDE"
      && !hasField attr "master_override_priority" then
      s.addError ("Attribute " ++ pyStr name ++
        " has master OVERRIDE but missing master_override_priority")
    else s
  match name with
  | .vStr nm =>
    let lowered := nm.data.map lowerChar
    let s := if sensitiveSubstrings.any (fun p => charsContains p.data lowered)
        && !eqStr (getD attr "permissions" .vNull) "HIDE" then
        s.addWarning ("Attribute " ++ nm ++ " appears sensitive but permissions is not HIDE")
      else s
    let t := getD attr "type" .vNull
    .ok (if (eqStr t "array" || eqStr t "object") && truthy (getD attr "unique" .vNull) then
        s.addWarning ("Attribute " ++ nm ++ " is " ++ pyStr t ++
          " with unique constraint - this may not work as expected")
      else s)
  | _ => .error "AttributeError: value has no attribute lower"

/-- `AttributeValidator.validate_attribute` (source lines 97-157): the
Attribute Evaluator over one record. -/
def validate_attribute (attr : Attr) (s : VState) : Except String VState :=
  let name := getD attr "name" (.vStr "unknown")
  if !hasField attr "name" then .ok (s.addError "Attribute missing name field")
  else if !hasField attr "type" then
    .ok (s.addError ("Attribute " ++ pyStr name ++ " missing type field"))
  else
    match validate_attribute_name name s with
    | .error e => .error e
    | .ok s =>
      match pyInStrSet (getD attr "type" .vNull) VALID_TYPES with
      | .error e => .error e
      | .ok tOk =>
        let s := if tOk then s else
          s.addError ("Attribute " ++ pyStr name ++ " has invalid type " ++
            pyStr (getD attr "type" .vNull) ++ ". Valid types: " ++ renderSet VALID_TYPES)
        match checkCatalogField attr "master" VALID_MASTERS (masterMsg name) s with
        | .error e => .error e
        | .ok s =>
          match checkCatalogField attr "permissions" VALID_PERMISSIONS (permsMsg name) s with
          | .error e => .error e
          | .ok s =>
            match checkCatalogField attr "scope" VALID_SCOPES (scopeMsg name) s with
            | .error e => .error e
            | .ok s =>
              match checkCatalogField attr "unique" VALID_UNIQUE (uniqueMsg name) s with
              | .error e => .error e
              | .ok s =>
                match validate_type_specific name attr s with
                | .error e => .error e
                | .ok s => check_best_practices name attr s

/-- The loop `for attr in ...: self.validate_attribute(attr)` run by
`validate_file` over a list of records (source lines 290-291, 297-298). -/
def validate_attribute_list : List Attr → VState → Except String VState
  | [], s => .ok s
  | a :: rest, s =>
      match validate_attribute a s with
      | .error e => .error e
      | .ok s => validate_attribute_list rest s

/-- The set comprehension building the base attribute name set in
`validate_overrides` (source line 253): collects the name value of every
record that has a name key; hashing an unhashable name raises TypeError.
Modeled as a list, membership taken up to Python equality. -/
def buildBaseNames : List Attr → Except String (List Value)
  | [] => .ok []
  | a :: rest =>
      if hasField a "name" then
        let n := getD a "name" .vNull
        if hashable n then
          match buildBaseNames rest with
          | .error e => .error e
          | .ok ns => .ok (n :: ns)
        else .error "TypeError: unhashable type"
      else buildBaseNames rest

/-- The loop of `AttributeValidator.validate_overrides` (source lines
255-264): a falsy name (absent, None, empty string, ...) is one ERROR and
the entry is skipped; a truthy name is hashed (TypeError when unhashable)
and looked up among the base names, a miss being one WARNING. -/
def validate_overrides_loop (base_names : List Value) :
    List Attr → VState → Except String VState
  | [], s => .ok s
  | o :: rest, s =>
      let name := getD o "name" .vNull
      if truthy name then
        if hashable name then
          validate_overrides_loop base_names rest
            (if base_names.any (fun b => pyEqScalar name b) then s
             else s.addWarning ("Override for " ++ pyStr name ++
               " does not match any base attribute"))
        else .error "TypeError: unhashable type"
      else validate_overrides_loop base_names rest (s.addError "Override missing name field")

/-- `AttributeValidator.validate_overrides` (source lines 250-264). -/
def validate_overrides (overrides : List Attr) (base_attrs : List Attr)
    (s : VState) : Except String VState :=
  match buildBaseNames base_attrs with
  | .error e => .error e
  | .ok base_names => validate_overrides_loop base_names overrides s

/-- A record-list value read from a schema-file key, as iterated by the
source loops (`data.get('overrides', [])` and friends): a missing key or a
non-list value yields the empty list, list elements are taken as mappings.
(Elements of other shapes, for which Python iteration semantics diverge,
lie outside the modeled domain; no claim involves them.) -/
def toAttr : Value → Attr
  | .vMap m => m
  | _ => []

/-- Key lookup coerced to a list of records; see `toAttr`. -/
def getRecords (data : List (String × Value)) (key : String) : List Attr :=
  match getField data key with
  | some (.vList xs) => xs.map toAttr
  | _ => []

/-- The override-structure loop of `validate_file` (source lines 284-287):
one ERROR per override entry without a name key. -/
def overridesStructLoop (path : String) : List Attr → VState → VState
  | [], s => s
  | o :: rest, s =>
      overridesStructLoop path rest
        (if hasField o "name" then s
         else s.addError (path ++ ": Override missing name"))

/-- The outcome of `load_yaml_file` for one file (source lines 62-75); the
reader is an external collaborator: on any load or parse failure the
source appends one ERROR and substitutes an empty mapping. -/
inductive LoadResult where
  | failed : String → LoadResult
  | loaded : List (String × Value) → LoadResult

/-- The body of `AttributeValidator.validate_file` after loading (source
lines 270-300): falsy data returns immediately with an empty mapping;
otherwise version/metadata presence produce WARNING/INFO, an override file
gets the override-structure loop and full validation of its additions, and
a base file gets an ERROR when `attributes` is missing, else full
validation of each attribute.  Returns the data the source returns. -/
def validate_file_data (path : String) (data : List (String × Value))
    (is_override : Bool) (s : VState) :
    Except String (VState × List (String × Value)) :=
  if data.isEmpty then .ok (s, [])
  else
    let s := if hasField data "version" then s
      else s.addWarning (path ++ ": Missing version field")
    let s := if hasField data "metadata" then s
      else s.addInfo (path ++ ": Missing metadata section")
    if is_override then
      let s := if hasField data "overrides" then
          overridesStructLoop path (getRecords data "overrides") s
        else s
      match (if hasField data "additions" then
          validate_attribute_list (getRecords data "additions") s
        else .ok s) with
      | .error e => .error e
      | .ok s => .ok (s, data)
    else
      if !hasField data "attributes" then
        .ok (s.addError (path ++ ": Missing attributes section"), data)
      else
        match validate_attribute_list (getRecords data "attributes") s with
        | .error e => .error e
        | .ok s => .ok (s, data)

/-- `AttributeValidator.validate_file` (source lines 266-300), with the
load outcome supplied by the external reader. -/
def validate_file (path : String) (lr : LoadResult) (is_override : Bool)
    (s : VState) : Except String (VState × List (String × Value)) :=
  match lr with
  | .failed msg => validate_file_data path [] is_override (s.addError msg)
  | .loaded d => validate_file_data path d is_override s

/-- The loop of `AttributeValidator.check_duplicates` (source lines
302-312), with the dict of seen names modeled as the list of truthy names
already inserted: a falsy name is skipped, a truthy name is hashed
(TypeError when unhashable), flagged with one ERROR when already seen, and
inserted. -/
def check_duplicates_aux : List Value → List Attr → VState → Except String VState
  | _, [], s => .ok s
  | seen, a :: rest, s =>
      let name := getD a "name" .vNull
      if truthy name then
        if hashable name then
          check_duplicates_aux (seen ++ [name]) rest
            (if seen.any (fun b => pyEqScalar name b) then
              s.addError ("Duplicate attribute name " ++ pyStr name ++ " found")
             else s)
        else .error "TypeError: unhashable type"
      else check_duplicates_aux seen rest s

/-- `AttributeValidator.check_duplicates` (source lines 302-312): the
Duplicate Detector. -/
def check_duplicates (attrs : List Attr) (s : VState) : Except String VState :=
  check_duplicates_aux [] attrs s

/-- One environment step of `validate_all` (source lines 337-355): a
missing override file is one INFO; an existing one is validated as an
override file and, when its data has an `overrides` key, cross-referenced
against the base attributes. -/
def process_env (base_attrs : List Attr) (path : String)
    (fileRes : Option LoadResult) (s : VState) : Except String VState :=
  match fileRes with
  | none => .ok (s.addInfo ("Override file not found: " ++ path))
  | some lr =>
      match validate_file path lr true s with
      | .error e => .error e
      | .ok (s, odata) =>
          if hasField odata "overrides" then
            validate_overrides (getRecords odata "overrides") base_attrs s
          else .ok s

/-- The inputs of one validation run: the load outcome of the base file and
of each of the four environment override files (`none` when the file does
not exist). -/
structure RunInput where
  base : LoadResult
  dev : Option LoadResult
  qa : Option LoadResult
  val : Option LoadResult
  prod : Option LoadResult

/-- The finding-producing pipeline of `AttributeValidator.validate_all`
(source lines 314-381): base file, duplicate check over the base
attributes, then the four environments in fixed order. -/
def runFindings (inp : RunInput) : Except String VState :=
  match validate_file "attributes/definitions/custom_attributes.yaml"
      inp.base false vEmpty with
  | .error e => .error e
  | .ok (s, base_data) =>
    let base_attrs := getRecords base_data "attributes"
    match check_duplicates base_attrs s with
    | .error e => .error e
    | .ok s =>
      match process_env base_attrs "attributes/overrides/dev.yaml" inp.dev s with
      | .error e => .error e
      | .ok s =>
        match process_env base_attrs "attributes/overrides/qa.yaml" inp.qa s with
        | .error e => .error e
        | .ok s =>
          match process_env base_attrs "attributes/overrides/val.yaml" inp.val s with
          | .error e => .error e
          | .ok s =>
            process_env base_attrs "attributes/overrides/prod.yaml" inp.prod s

/-- `AttributeValidator.validate_all` (source lines 314-389): the final
verdict is True exactly when the error list is empty. -/
def validate_all (inp : RunInput) : Except String (VState × Bool) :=
  match runFindings inp with
  | .error e => .error e
  | .ok s => .ok (s, s.errors.isEmpty)

/-- The exit behavior of `main` (source lines 414-433): the verdict of
`validate_all`, demoted to failure under `--strict` when any warning was
recorded; exit status 0 on success, 1 otherwise. -/
def mainExitCode (inp : RunInput) (strict : Bool) : Except String Nat :=
  match validate_all inp with
  | .error e => .error e
  | .ok (s, success) =>
      let success := if strict && !s.warnings.isEmpty then false else success
      .ok (if success then 0 else 1)

/-- The name value of a record, absent read as None. -/
def nameOf (a : Attr) : Value := getD a "name" .vNull

/-- The truthy names of a record list, in order: the sequence of names the
Duplicate Detector actually inserts. -/
def truthyNames (attrs : List Attr) : List Value :=
  (attrs.map nameOf).filter truthy

/-- Every truthy name of the list is hashable (so the Duplicate Detector
completes without a TypeError). -/
def namesHashableOk (attrs : List Attr) : Bool :=
  attrs.all (fun a => !truthy (nameOf a) || hashable (nameOf a))

/-- Spec-side repeat detection: walking a name sequence with the names
already seen, keep exactly the names that already occurred earlier (the
first occurrence of a name is never kept, each later repeat is kept
once). -/
def repeatFlags : List Value → List Value → List Value
  | _, [] => []
  | earlier, n :: rest =>
      (if earlier.any (fun b => pyEqScalar n b) then [n] else []) ++
        repeatFlags (earlier ++ [n]) rest

/-- The duplicate-error messages the detector loop appends, mirrored as a
pure list for the C5 statement. -/
def dupMsgs : List Value → List Attr → List String
  | _, [] => []
  | seen, a :: rest =>
      let name := getD a "name" .vNull
      if truthy name then
        (if seen.any (fun b => pyEqScalar name b) then
          ["Duplicate attribute name " ++ pyStr name ++ " found"] else []) ++
          dupMsgs (seen ++ [name]) rest
      else dupMsgs seen rest

/-- The errors of the override-structure pass of `validate_file` for a list
of override entries: one per entry without a name key. -/
def structMsgs (path : String) (entries : List Attr) : List String :=
  entries.filterMap (fun e =>
    if hasField e "name" then none else some (path ++ ": Override missing name"))

/-- The errors of the cross-reference pass (`validate_overrides`) for a
list of override entries: one per entry whose name is absent or falsy. -/
def crossMsgs (entries : List Attr) : List String :=
  entries.filterMap (fun e =>
    if truthy (getD e "name" .vNull) then none
    else some "Override missing name field")

/-- The warnings the cross-reference pass appends: one per entry whose
truthy name misses every base name. -/
def crossWarnMsgs (base_names : List Value) (entries : List Attr) : List String :=
  entries.filterMap (fun e =>
    let n := getD e "name" .vNull
    if truthy n && !(base_names.any (fun b => pyEqScalar n b)) then
      some ("Override for " ++ pyStr n ++ " does not match any base attribute")
    else none)

/-- Every override entry has either no name key or a string name (the
shapes claim C10 quantifies over; strings are hashable, so neither pass
can raise). -/
def entryNamesOk (entries : List Attr) : Bool :=
  entries.all (fun e =>
    match getField e "name" with
    | none => true
    | some (.vStr _) => true
    | some _ => false)

/-- ERROR findings claim C10 predicts for one override entry: one from the
file-structure pass when the name key is absent, plus one from the
cross-reference pass when the name is absent or falsy. -/
def c10EntryErrCount (e : Attr) : Nat :=
  (if hasField e "name" then 0 else 1) +
    (if truthy (getD e "name" .vNull) then 0 else 1)

/-- Did an evaluator call complete without an uncaught exception? -/
def resultOk : Except String VState → Bool
  | .ok _ => true
  | .error _ => false

/-- The error list of a completed evaluator call (empty on an uncaught
exception; always used together with `resultOk`). -/
def resultErrors : Except String VState → List String
  | .ok s => s.errors
  | .error _ => []

/-- The warning list of a completed evaluator call. -/
def resultWarnings : Except String VState → List String
  | .ok s => s.warnings
  | .error _ => []

/-- The last warning of a completed evaluator call. -/
def resultWarnLast (r : Except String VState) : Option String :=
  (resultWarnings r).getLast?

/-- Did a `validate_file` call complete without an uncaught exception? -/
def fileOk : Except String (VState × List (String × Value)) → Bool
  | .ok _ => true
  | .error _ => false

/-- The error list of a completed `validate_file` call. -/
def fileErrors : Except String (VState × List (String × Value)) → List String
  | .ok (s, _) => s.errors
  | .error _ => []

/-- A record whose string min_length cannot be compared with its integer
max_length: Python raises TypeError at source line 168. -/
def c1attr : Attr :=
  [("name", .vStr "ab"), ("type", .vStr "string"),
   ("min_length", .vStr "five"), ("max_length", .vInt 3)]

/-- A record whose master field is present but empty (falsy): the catalog
check at source line 123 is skipped by truthiness. -/
def c2attr : Attr := [("name", .vStr "ab"), ("type", .vStr "string"), ("master", .vStr "")]

/-- A minimal run input: a base file declaring an empty attribute list, no
environment override files. -/
def c3inp : RunInput :=
  { base := .loaded [("attributes", .vList [])],
    dev := none, qa := none, val := none, prod := none }

/-- The findings of the run on `c3inp`. -/
def c3state : VState :=
  match runFindings c3inp with
  | .ok s => s
  | .error _ => vEmpty

/-- A record with a name but no type key. -/
def c4recNoType : Attr := [("name", .vStr "ab"), ("description", .vStr "d")]

/-- An override entry list with a repeated empty-string name: each entry
has a name key, and the second name equals the first. -/
def c5emptyNameRec : Attr := [("name", .vStr "")]

/-- The record list named a, b, a, a from the spec example. -/
def c5recs4 : List Attr :=
  [[("name", .vStr "a")], [("name", .vStr "b")],
   [("name", .vStr "a")], [("name", .vStr "a")]]

/-- Non-empty base-file data without an `attributes` key. -/
def c6dat : List (String × Value) := [("version", .vInt 1)]

/-- A composite-typed record whose unique field is present but False
(falsy): the warning at source lines 244-248 is skipped by truthiness. -/
def c7attr : Attr :=
  [("name", .vStr "ab"), ("type", .vStr "object"), ("unique", .vBool false),
   ("description", .vStr "d"), ("display_name", .vStr "d")]

/-- A name that is a pattern match followed by one trailing newline: not in
the language of the anchored pattern, yet accepted by Python re.match. -/
def c8nameNl : String := "ab" ++ String.mk [nlChar]

/-- A single well-formed record, for the idempotence witness. -/
def c9recs : List Attr := [[("name", .vStr "ab"), ("type", .vStr "string")]]

/-- The findings of the first evaluator pass over `c9recs`. -/
def c9state : VState :=
  match validate_attribute_list c9recs vEmpty with
  | .ok s => s
  | .error _ => vEmpty

/-- Override-file data with two overrides lacking a usable name: one with
no name key at all, one with an empty-string name. -/
def c10data : List (String × Value) :=
  [("overrides", .vList [.vMap [], .vMap [("name", .vStr "")]])]

/-- The four optional enumerated fields and their catalogs (claim C2). -/
def c2CatalogFields : List (String × List String) :=
  [("master", VALID_MASTERS), ("permissions", VALID_PERMISSIONS),
   ("scope", VALID_SCOPES), ("unique", VALID_UNIQUE)]

/-- An evaluator step is state-free when it treats the finding lists as a
write-only log: run from a larger prior state, it produces exactly the
same outcome with the extra prefix in front.  Every function of the
validator has this shape (no check ever reads the finding lists). -/
def StateFree (f : VState → Except String VState) : Prop :=
  ∀ s t, f (vappend s t) = (f t).map (vappend s)

/-- ### Theorems -/

theorem addError_errors (s : VState) (m : String) :
    (VState.addError s m).errors = s.errors ++ [m] := rfl

theorem addWarning_errors (s : VState) (m : String) :
    (VState.addWarning s m).errors = s.errors := rfl

theorem addInfo_errors (s : VState) (m : String) :
    (VState.addInfo s m).errors = s.errors := rfl

theorem addError_warnings (s : VState) (m : String) :
    (VState.addError s m).warnings = s.warnings := rfl

theorem addWarning_warnings (s : VState) (m : String) :
    (VState.addWarning s m).warnings = s.warnings ++ [m] := rfl

theorem addInfo_warnings (s : VState) (m : String) :
    (VState.addInfo s m).warnings = s.warnings := rfl

theorem vappend_vEmpty (s : VState) : vappend s vEmpty = s := by
  cases s; simp [vappend, vEmpty]

theorem vEmpty_vappend (s : VState) : vappend vEmpty s = s := by
  cases s; simp [vappend, vEmpty]

theorem vappend_addError (s t : VState) (m : String) :
    VState.addError (vappend s t) m = vappend s (VState.addError t m) := by
  simp [vappend, VState.addError]

theorem vappend_addWarning (s t : VState) (m : String) :
    VState.addWarning (vappend s t) m = vappend s (VState.addWarning t m) := by
  simp [vappend, VState.addWarning]

theorem vappend_addInfo (s t : VState) (m : String) :
    VState.addInfo (vappend s t) m = vappend s (VState.addInfo t m) := by
  simp [vappend, VState.addInfo]

/-- C1: the Attribute Evaluator is claimed never to fail or throw, with
malformed field values degrading to Findings; but on a record of type
string whose min_length is a string and max_length an integer, the
comparison `min_len > max_len` at source line 168 raises an uncaught
TypeError, terminating evaluation instead of producing a Finding. -/
theorem c1_evaluator_raises :
    validate_attribute c1attr vEmpty =
      .error "TypeError: unorderable comparison of min_length and max_length" := by
  rfl

/-- C2 counterexample: the record `c2attr` has `master` present with value
`""`, which is not in VALID_MASTERS, yet the evaluator emits no ERROR at
all for the record — the truthiness guard at source line 123 skips the
catalog check for every falsy present value. -/
theorem c2_falsy_master_counterexample :
    hasField c2attr "master" = true ∧
    pyInStrSet (Value.vStr "") VALID_MASTERS = .ok false ∧
    resultOk (validate_attribute c2attr vEmpty) = true ∧
    resultErrors (validate_attribute c2attr vEmpty) = [] :=
  ⟨rfl, rfl, by decide, by decide⟩

/-- C2 (amended): for each of the optional enumerated fields master,
permissions, scope, unique: an absent field is never checked against its
catalog, and a present TRUTHY (hashable) value not in the catalog set
yields exactly one ERROR listing the valid set; a present falsy value
(empty string, False, None, 0) is skipped exactly like an absent one. -/
theorem c2_catalog_field_check (attr : Attr) (key : String)
    (catalog : List String) (mk : Value → String) (s : VState)
    (_hmem : (key, catalog) ∈ c2CatalogFields) :
    (hasField attr key = false → checkCatalogField attr key catalog mk s = .ok s) ∧
    (∀ v, getField attr key = some v → truthy v = true → hashable v = true →
      catalog.any (fun c => eqStr v c) = false →
      checkCatalogField attr key catalog mk s = .ok (s.addError (mk v))) := by
  constructor
  · intro h
    have hfind : attr.find? (fun p => p.1 == key) = none := by
      rw [List.find?_eq_none]
      intro p hp hcontra
      have h2 : attr.any (fun p => p.1 == key) = false := h
      have hany : attr.any (fun p => p.1 == key) = true :=
        List.any_eq_true.mpr ⟨p, hp, hcontra⟩
      simp [h2] at hany
    simp [checkCatalogField, getD, getField, hfind, truthy]
  · intro v hv htr hh hmemb
    simp [checkCatalogField, getD, hv, htr, pyInStrSet, hh, hmemb]

/-- C2 witness: a present truthy out-of-catalog master value produces
exactly the one ERROR, and an absent field is skipped. -/
theorem c2_catalog_field_check_witness :
    checkCatalogField [("master", Value.vStr "BAD")] "master" VALID_MASTERS
        (masterMsg (Value.vStr "ab")) vEmpty =
      .ok (vEmpty.addError (masterMsg (Value.vStr "ab") (Value.vStr "BAD"))) ∧
    checkCatalogField [] "scope" VALID_SCOPES (scopeMsg (Value.vStr "ab")) vEmpty =
      .ok vEmpty :=
  ⟨(c2_catalog_field_check [("master", Value.vStr "BAD")] "master" VALID_MASTERS
      (masterMsg (Value.vStr "ab")) vEmpty (by simp [c2CatalogFields])).2
      (Value.vStr "BAD") rfl rfl rfl rfl,
   (c2_catalog_field_check [] "scope" VALID_SCOPES (scopeMsg (Value.vStr "ab")) vEmpty
      (by simp [c2CatalogFields])).1 rfl⟩

/-- C4: a record without a name key yields exactly the one ERROR "missing
name field" and no other finding, evaluation of the record stopping there;
a record with a name but no type key yields exactly the one ERROR
"missing type field" and no other finding. -/
theorem c4_required_fields (attr : Attr) (s : VState) :
    (hasField attr "name" = false →
      validate_attribute attr s = .ok (s.addError "Attribute missing name field")) ∧
    (hasField attr "name" = true → hasField attr "type" = false →
      validate_attribute attr s = .ok (s.addError
        ("Attribute " ++ pyStr (getD attr "name" (.vStr "unknown")) ++
          " missing type field"))) := by
  constructor
  · intro h
    simp [validate_attribute, h]
  · intro h1 h2
    simp [validate_attribute, h1, h2]

/-- C4 witness at concrete records with the respective key missing. -/
theorem c4_required_fields_witness :
    validate_attribute [("type", Value.vStr "string")] vEmpty =
      .ok (vEmpty.addError "Attribute missing name field") ∧
    validate_attribute c4recNoType vEmpty =
      .ok (vEmpty.addError ("Attribute " ++
        pyStr (getD c4recNoType "name" (.vStr "unknown")) ++ " missing type field")) :=
  ⟨(c4_required_fields [("type", Value.vStr "string")] vEmpty).1 rfl,
   (c4_required_fields c4recNoType vEmpty).2 rfl rfl⟩

/-- C6 counterexample: a base file whose data is the empty mapping does not
declare `attributes`, yet validating it records no Finding at all — the
falsy-data early return at source lines 270-271 fires before the
`attributes` check. -/
theorem c6_empty_base_counterexample :
    hasField ([] : List (String × Value)) "attributes" = false ∧
    validate_file "p" (.loaded []) false vEmpty = .ok (vEmpty, []) :=
  ⟨rfl, rfl⟩

/-- C6 (amended): when the base file loads to a NON-EMPTY mapping without
an `attributes` key, exactly one ERROR on the file itself is recorded (and
no crash); when the data is empty (or the loader already failed and
substituted an empty mapping), `validate_file` returns before the
`attributes` check and records no such ERROR. -/
theorem c6_missing_attributes (path : String) (d : List (String × Value))
    (s : VState) (hne : d.isEmpty = false) (hna : hasField d "attributes" = false) :
    fileOk (validate_file path (.loaded d) false s) = true ∧
    fileErrors (validate_file path (.loaded d) false s) =
      s.errors ++ [path ++ ": Missing attributes section"] := by
  unfold validate_file validate_file_data
  simp only [hne, hna, Bool.false_eq_true, if_false, Bool.not_false, if_true]
  constructor
  · split <;> split <;> rfl
  · split <;> split <;>
      simp [fileErrors, VState.addError, VState.addWarning, VState.addInfo]

/-- C6 witness: a one-key base file without `attributes` gets exactly the
one file-level ERROR. -/
theorem c6_missing_attributes_witness :
    fileOk (validate_file "p" (.loaded c6dat) false vEmpty) = true ∧
    fileErrors (validate_file "p" (.loaded c6dat) false vEmpty) =
      [] ++ ["p" ++ ": Missing attributes section"] :=
  c6_missing_attributes "p" c6dat vEmpty rfl rfl

/-- C7 counterexample: the record `c7attr` has type object and a present
`unique` field (value False), yet the evaluator emits no Finding at all —
the truthiness guard at source line 244 skips the composite-uniqueness
warning for falsy present values. -/
theorem c7_falsy_unique_counterexample :
    hasField c7attr "unique" = true ∧
    eqStr (getD c7attr "type" .vNull) "object" = true ∧
    validate_attribute c7attr vEmpty = .ok vEmpty :=
  ⟨rfl, rfl, by rfl⟩

/-- C7 (amended): for a record of type array or object whose `unique`
field is present with a TRUTHY value, the best-practice check appends (as
its last warning) the WARNING that uniqueness may not behave as expected
for composite types; a falsy present value is skipped like an absent
one. -/
theorem c7_composite_unique_warns (nm : String) (attr : Attr) (s : VState)
    (ht : (eqStr (getD attr "type" .vNull) "array"
      || eqStr (getD attr "type" .vNull) "object") = true)
    (hu : truthy (getD attr "unique" .vNull) = true) :
    resultWarnLast (check_best_practices (.vStr nm) attr s) =
      some ("Attribute " ++ nm ++ " is " ++ pyStr (getD attr "type" .vNull) ++
        " with unique constraint - this may not work as expected") := by
  unfold check_best_practices
  simp only [ht, hu, Bool.and_self, if_true, Bool.true_and, resultWarnLast,
    resultWarnings]
  split <;> split <;> split <;> split <;>
    simp [VState.addWarning, VState.addError, VState.addInfo]

/-- C7 witness: an object-typed record with `unique: NOT_UNIQUE` (truthy)
receives the composite-uniqueness WARNING. -/
theorem c7_composite_unique_warns_witness :
    resultWarnLast (check_best_practices (.vStr "ab")
        [("type", Value.vStr "object"), ("unique", Value.vStr "NOT_UNIQUE")] vEmpty) =
      some ("Attribute " ++ "ab" ++ " is " ++
        pyStr (getD [("type", Value.vStr "object"), ("unique", Value.vStr "NOT_UNIQUE")]
          "type" .vNull) ++
        " with unique constraint - this may not work as expected") :=
  c7_composite_unique_warns "ab"
    [("type", Value.vStr "object"), ("unique", Value.vStr "NOT_UNIQUE")] vEmpty rfl rfl

/-- C3: a validation run succeeds exactly when no ERROR finding was
recorded, strict mode additionally requires zero WARNING findings, and the
process exit status is zero exactly under these rules (source lines
383-389 and 414-433). -/
theorem c3_exit_code (inp : RunInput) (strict : Bool) (s : VState) (b : Bool)
    (h : validate_all inp = .ok (s, b)) :
    mainExitCode inp strict = .ok 0 ↔
      (s.errors = [] ∧ (strict = true → s.warnings = [])) := by
  unfold mainExitCode
  unfold validate_all at h ⊢
  cases hr : runFindings inp with
  | error e => rw [hr] at h; exact absurd h (by simp)
  | ok s0 =>
    rw [hr] at h
    obtain ⟨hs, hb⟩ : s0 = s ∧ s0.errors.isEmpty = b := by simpa using h
    subst hs
    by_cases he : s0.errors = [] <;> by_cases hw : s0.warnings = [] <;>
      cases strict <;>
      simp [he, hw, List.isEmpty_iff]

/-- C3 witness: on the minimal run input (empty base attribute list, no
environment files) the non-strict exit status is zero. -/
theorem c3_exit_code_witness :
    mainExitCode c3inp false = .ok 0 :=
  (c3_exit_code c3inp false c3state true (by rfl)).mpr
    ⟨by rfl, fun hcontra => Bool.noConfusion hcontra⟩

/-- Helper for C5: the detector loop appends exactly the duplicate
messages `dupMsgs seen attrs` to the error list and touches nothing else,
provided every truthy name is hashable. -/
theorem check_duplicates_aux_spec (attrs : List Attr) (seen : List Value)
    (s : VState) (h : namesHashableOk attrs = true) :
    check_duplicates_aux seen attrs s =
      .ok ⟨s.errors ++ dupMsgs seen attrs, s.warnings, s.info⟩ := by
  induction attrs generalizing seen s with
  | nil => cases s; simp [check_duplicates_aux, dupMsgs]
  | cons a rest ih =>
    have hsimp := h
    simp only [namesHashableOk, List.all_cons, Bool.and_eq_true] at hsimp
    obtain ⟨h1, hrest⟩ := hsimp
    have h2 : namesHashableOk rest = true := hrest
    unfold check_duplicates_aux dupMsgs
    by_cases htr : truthy (getD a "name" .vNull) = true
    · have hh : hashable (getD a "name" .vNull) = true := by
        simp only [nameOf, Bool.or_eq_true, Bool.not_eq_true'] at h1
        rcases h1 with h1 | h1
        · rw [h1] at htr; cases htr
        · exact h1
      simp only [htr, if_true, hh]
      by_cases hseen : (seen.any fun b => pyEqScalar (getD a "name" .vNull) b) = true
      · simp only [hseen, if_true]
        rw [ih _ _ h2]
        simp [VState.addError, List.append_assoc]
      · simp only [hseen, if_false]
        rw [ih _ _ h2]
        simp [hseen]
    · simp only [htr, if_false]
      exact ih seen s h2

/-- Helper for C5: the detector emits exactly as many duplicate errors as
there are repeats among the truthy names. -/
theorem dupMsgs_length (attrs : List Attr) (seen : List Value) :
    (dupMsgs seen attrs).length = (repeatFlags seen (truthyNames attrs)).length := by
  induction attrs generalizing seen with
  | nil => rfl
  | cons a rest ih =>
    unfold dupMsgs truthyNames
    by_cases htr : truthy (getD a "name" .vNull) = true
    · have : truthyNames (a :: rest) = getD a "name" .vNull :: truthyNames rest := by
        simp [truthyNames, nameOf, htr, List.filter]
      rw [show ((a :: rest).map nameOf).filter truthy
            = getD a "name" .vNull :: truthyNames rest from this]
      unfold repeatFlags
      by_cases hseen : (seen.any fun b => pyEqScalar (getD a "name" .vNull) b) = true <;>
        simp [htr, hseen, ih, truthyNames]
    · have : ((a :: rest).map nameOf).filter truthy = truthyNames rest := by
        simp [truthyNames, nameOf, htr, List.filter]
      rw [this]
      simp [htr, ih, truthyNames]

/-- C5 counterexample: two records both carrying a name field with the
same (empty-string) value; the claim predicts one ERROR for the second
record, but the Duplicate Detector emits none — the truthiness guard at
source line 307 skips every record whose name is falsy, not only records
without a name field. -/
theorem c5_empty_name_counterexample :
    hasField c5emptyNameRec "name" = true ∧
    pyEqScalar (getD c5emptyNameRec "name" .vNull) (getD c5emptyNameRec "name" .vNull) = true ∧
    check_duplicates [c5emptyNameRec, c5emptyNameRec] vEmpty = .ok vEmpty :=
  ⟨rfl, rfl, rfl⟩

/-- C5 (amended): the Duplicate Detector emits exactly one ERROR per
record whose TRUTHY name has already occurred as the truthy name of an
earlier record (the first occurrence is never flagged, each later repeat
is flagged once); records whose name is absent OR falsy (e.g. an empty
string) are skipped; nothing but errors is appended.  On records named
a, b, a, a this count is two (see the witness). -/
theorem c5_duplicate_detector (attrs : List Attr) (s : VState)
    (h : namesHashableOk attrs = true) :
    resultOk (check_duplicates attrs s) = true ∧
    resultWarnings (check_duplicates attrs s) = s.warnings ∧
    (resultErrors (check_duplicates attrs s)).length =
      s.errors.length + (repeatFlags [] (truthyNames attrs)).length := by
  unfold check_duplicates
  rw [check_duplicates_aux_spec attrs [] s h]
  simp [resultOk, resultWarnings, resultErrors, dupMsgs_length]

/-- C5 witness: on records named a, b, a, a the detector emits exactly two
ERRORs. -/
theorem c5_duplicate_detector_witness :
    namesHashableOk c5recs4 = true ∧
    (resultErrors (check_duplicates c5recs4 vEmpty)).length = 2 :=
  ⟨by rfl,
   ((c5_duplicate_detector c5recs4 vEmpty (by rfl)).2.2).trans (by rfl)⟩

/-- Helper for C10: the file-structure pass appends exactly one ERROR per
override entry without a name key, and nothing else. -/
theorem overridesStructLoop_spec (path : String) (entries : List Attr) (s : VState) :
    overridesStructLoop path entries s =
      ⟨s.errors ++ structMsgs path entries, s.warnings, s.info⟩ := by
  induction entries generalizing s with
  | nil => cases s; simp [overridesStructLoop, structMsgs]
  | cons e rest ih =>
    unfold overridesStructLoop
    by_cases hn : hasField e "name" = true <;>
      simp [hn, ih, structMsgs, VState.addError, List.filterMap_cons, List.append_assoc]

/-- Helper for C10: an entry whose name is absent or a string has a
hashable name value. -/
theorem hashable_of_entryNameOk (e : Attr)
    (he : (match getField e "name" with
           | none => true
           | some (.vStr _) => true
           | some _ => false) = true) :
    hashable (getD e "name" .vNull) = true := by
  cases hg : getField e "name" with
  | none => simp [getD, hg, hashable]
  | some v =>
    rw [hg] at he
    cases v with
    | vStr t => simp [getD, hg, hashable]
    | vNull => simp [getD, hg, hashable]
    | vBool b => simp [getD, hg, hashable]
    | vInt n => simp [getD, hg, hashable]
    | vList l => exact Bool.noConfusion he
    | vMap m => exact Bool.noConfusion he

/-- Helper for C10: one unfolding step of `crossMsgs`. -/
theorem crossMsgs_cons (e : Attr) (rest : List Attr) :
    crossMsgs (e :: rest) =
      (if truthy (getD e "name" .vNull) then [] else ["Override missing name field"])
        ++ crossMsgs rest := by
  by_cases htr : truthy (getD e "name" .vNull) = true <;>
    simp [crossMsgs, List.filterMap_cons, htr]

/-- Helper for C10: one unfolding step of `crossWarnMsgs`. -/
theorem crossWarnMsgs_cons (bns : List Value) (e : Attr) (rest : List Attr) :
    crossWarnMsgs bns (e :: rest) =
      (if truthy (getD e "name" .vNull)
          && !(bns.any fun b => pyEqScalar (getD e "name" .vNull) b) then
        ["Override for " ++ pyStr (getD e "name" .vNull) ++ " does not match any base attribute"]
      else []) ++ crossWarnMsgs bns rest := by
  by_cases htr : truthy (getD e "name" .vNull) = true <;>
    by_cases hmem : (bns.any fun b => pyEqScalar (getD e "name" .vNull) b) = true <;>
      simp only [crossWarnMsgs, List.filterMap_cons, htr, hmem, Bool.not_true,
        Bool.not_false, Bool.and_true, Bool.and_false, Bool.true_and, Bool.false_and,
        Bool.not_eq_true] <;>
      simp [htr, hmem]

/-- Helper for C10: the cross-reference pass appends exactly one ERROR per
entry with an absent-or-falsy name and one WARNING per unmatched truthy
name, and nothing else. -/
theorem validate_overrides_loop_spec (entries : List Attr) (base_names : List Value)
    (s : VState) (h : entryNamesOk entries = true) :
    validate_overrides_loop base_names entries s =
      .ok ⟨s.errors ++ crossMsgs entries,
           s.warnings ++ crossWarnMsgs base_names entries, s.info⟩ := by
  induction entries generalizing s with
  | nil => cases s; simp [validate_overrides_loop, crossMsgs, crossWarnMsgs]
  | cons e rest ih =>
    have hsimp := h
    simp only [entryNamesOk, List.all_cons, Bool.and_eq_true] at hsimp
    obtain ⟨h1, hrest⟩ := hsimp
    have h2 : entryNamesOk rest = true := hrest
    unfold validate_overrides_loop
    rw [crossMsgs_cons, crossWarnMsgs_cons]
    by_cases htr : truthy (getD e "name" .vNull) = true
    · have hh : hashable (getD e "name" .vNull) = true := hashable_of_entryNameOk e h1
      simp only [htr, if_true, hh, Bool.true_and]
      by_cases hmem : (base_names.any fun b => pyEqScalar (getD e "name" .vNull) b) = true
      · simp only [hmem, if_true, Bool.not_true, if_false, List.nil_append]
        rw [ih _ h2]
        simp
      · simp only [hmem, if_false, Bool.not_false, if_true]
        rw [ih _ h2]
        simp [VState.addWarning, List.append_assoc]
    · simp only [htr, if_false, Bool.false_and]
      rw [ih (s.addError "Override missing name field") h2]
      simp [VState.addError, List.append_assoc]

/-- Helper for C10: `validate_file` on a non-empty override file without
additions appends exactly the file-structure errors (plus the
version/metadata WARNING/INFO) and returns the data unchanged. -/
theorem validate_file_override_spec (path : String) (data : List (String × Value))
    (s : VState) (hne : data.isEmpty = false) (hadd : hasField data "additions" = false)
    (hov : hasField data "overrides" = true) :
    validate_file path (.loaded data) true s =
      .ok (⟨s.errors ++ structMsgs path (getRecords data "overrides"),
            s.warnings ++ (if hasField data "version" then []
              else [path ++ ": Missing version field"]),
            s.info ++ (if hasField data "metadata" then []
              else [path ++ ": Missing metadata section"])⟩,
          data) := by
  unfold validate_file validate_file_data
  by_cases hv : hasField data "version" = true <;>
    by_cases hm : hasField data "metadata" = true <;>
      simp only [hne, hadd, hov, hv, hm, if_true, if_false, Bool.false_eq_true,
        Bool.not_false] <;>
      rw [overridesStructLoop_spec] <;>
      simp [VState.addWarning, VState.addInfo, List.append_assoc]

/-- Helper for C10: per entry, the two passes together contribute
`c10EntryErrCount` errors. -/
theorem c10_count (path : String) (es : List Attr) :
    (structMsgs path es).length + (crossMsgs es).length =
      (es.map c10EntryErrCount).sum := by
  induction es with
  | nil => rfl
  | cons e rest ih =>
    by_cases hn : hasField e "name" = true <;>
      by_cases htr : truthy (getD e "name" .vNull) = true <;>
        simp [structMsgs, crossMsgs, c10EntryErrCount, List.filterMap_cons, hn, htr] at * <;>
        omega

/-- C10: in one run over an override file, an override entry without a
name key receives TWO ERRORs (one from the file-structure pass at source
lines 286-287, one from the cross-reference pass at source lines 257-259),
while an entry whose name is present but falsy (e.g. the empty string)
receives only the cross-reference ERROR: the run appends the
file-structure errors followed by the cross-reference errors, and the
total per-entry count is `c10EntryErrCount` (2 when the key is absent, 1
when the value is falsy, 0 otherwise). -/
theorem c10_override_missing_name (path : String) (data : List (String × Value))
    (base_attrs : List Attr) (s : VState) (bns : List Value)
    (hne : data.isEmpty = false)
    (hov : hasField data "overrides" = true)
    (hadd : hasField data "additions" = false)
    (hents : entryNamesOk (getRecords data "overrides") = true)
    (hb : buildBaseNames base_attrs = .ok bns) :
    resultOk (process_env base_attrs path (some (.loaded data)) s) = true ∧
    resultErrors (process_env base_attrs path (some (.loaded data)) s) =
      s.errors ++ structMsgs path (getRecords data "overrides")
        ++ crossMsgs (getRecords data "overrides") ∧
    (resultErrors (process_env base_attrs path (some (.loaded data)) s)).length =
      s.errors.length + ((getRecords data "overrides").map c10EntryErrCount).sum := by
  have hpe : process_env base_attrs path (some (.loaded data)) s =
      validate_overrides (getRecords data "overrides") base_attrs
        ⟨s.errors ++ structMsgs path (getRecords data "overrides"),
         s.warnings ++ (if hasField data "version" then []
           else [path ++ ": Missing version field"]),
         s.info ++ (if hasField data "metadata" then []
           else [path ++ ": Missing metadata section"])⟩ := by
    unfold process_env
    dsimp only
    rw [validate_file_override_spec path data s hne hadd hov]
    dsimp only
    simp [hov]
  rw [hpe]
  unfold validate_overrides
  rw [hb]
  dsimp only
  rw [validate_overrides_loop_spec (getRecords data "overrides") bns
    ⟨s.errors ++ structMsgs path (getRecords data "overrides"),
     s.warnings ++ (if hasField data "version" then []
       else [path ++ ": Missing version field"]),
     s.info ++ (if hasField data "metadata" then []
       else [path ++ ": Missing metadata section"])⟩ hents]
  refine ⟨rfl, ?_, ?_⟩
  · simp [resultErrors, List.append_assoc]
  · simp [resultErrors, List.append_assoc, c10_count]

/-- C10 witness: a file with one keyless override entry and one
empty-string-named entry yields error counts 2 and 1. -/
theorem c10_override_missing_name_witness :
    (resultErrors (process_env [] "p" (some (.loaded c10data)) vEmpty)).length =
      vEmpty.errors.length + ((getRecords c10data "overrides").map c10EntryErrCount).sum ∧
    (getRecords c10data "overrides").map c10EntryErrCount = [2, 1] :=
  ⟨(c10_override_missing_name "p" c10data [] vEmpty [] rfl rfl rfl rfl rfl).2.2, by rfl⟩

/-- Helper for C9: the string-property warning loop only appends. -/
theorem stringPropWarnLoop_vappend (name : Value) (tname : String) (attr : Attr)
    (props : List String) (s t : VState) :
    stringPropWarnLoop name tname attr props (vappend s t) =
      vappend s (stringPropWarnLoop name tname attr props t) := by
  induction props generalizing t with
  | nil => rfl
  | cons p rest ih =>
    unfold stringPropWarnLoop
    by_cases hp : hasField attr p = true <;>
      simp [hp, vappend_addWarning, ih]

/-- Helper for C9: the catalog check treats the finding lists as a
write-only log. -/
theorem stateFree_checkCatalogField (attr : Attr) (key : String)
    (catalog : List String) (mk : Value → String) :
    StateFree (checkCatalogField attr key catalog mk) := by
  intro s t
  unfold checkCatalogField
  by_cases htr : truthy (getD attr key .vNull) = true
  · simp only [htr, if_true]
    cases pyInStrSet (getD attr key .vNull) catalog with
    | error e => simp [Except.map]
    | ok member => cases member <;> simp [Except.map, vappend_addError]
  · simp [htr, Except.map]

/-- Helper for C9: the name check treats the finding lists as a
write-only log. -/
theorem stateFree_validate_attribute_name (name : Value) :
    StateFree (validate_attribute_name name) := by
  intro s t
  unfold validate_attribute_name
  cases pyInStrSet name RESERVED_ATTRIBUTES with
  | error e => simp [Except.map]
  | ok reserved =>
    cases name with
    | vStr nm =>
      cases reserved <;>
        by_cases h1 : pyNameMatch nm = true <;>
          by_cases h2 : (startsWithCh '_' nm || endsWithCh '_' nm) = true <;>
            by_cases h3 : charsContains ['_', '_'] nm.data = true <;>
              simp [h1, h2, h3, Except.map, vappend_addError, vappend_addWarning,
                vappend_addInfo]
    | vNull => cases reserved <;> simp [Except.map, vappend_addWarning]
    | vBool b => cases reserved <;> simp [Except.map, vappend_addWarning]
    | vInt n => cases reserved <;> simp [Except.map, vappend_addWarning]
    | vList l => cases reserved <;> simp [Except.map, vappend_addWarning]
    | vMap m => cases reserved <;> simp [Except.map, vappend_addWarning]

/-- Helper for C9: the pattern/enum part of the string branch of
`validate_type_specific` treats the finding lists as a write-only log. -/
theorem sf_string_tail (name : Value) (attr : Attr) :
    StateFree (fun u =>
      match (if hasField attr "pattern" then
          (match getD attr "pattern" .vNull with
           | Value.vStr p => Except.ok (if reCompileOk p then u
               else u.addError ("Attribute " ++ pyStr name ++ " has invalid regex pattern"))
           | _ => Except.error "TypeError: first argument must be string or compiled pattern")
        else Except.ok u) with
      | Except.error e => Except.error e
      | Except.ok u2 =>
          Except.ok (if hasField attr "enum" && !isListVal (getD attr "enum" .vNull) then
            u2.addError ("Attribute " ++ pyStr name ++ " enum must be a list") else u2)) := by
  intro s t
  dsimp only
  by_cases hpat : hasField attr "pattern" = true
  · simp only [hpat, if_true]
    cases getD attr "pattern" .vNull with
    | vStr p =>
      by_cases hre : reCompileOk p = true <;>
        by_cases henum : (hasField attr "enum" && !isListVal (getD attr "enum" .vNull)) = true <;>
          simp [hre, henum, Except.map, vappend_addError]
    | vNull => simp [Except.map]
    | vBool b => simp [Except.map]
    | vInt n => simp [Except.map]
    | vList l => simp [Except.map]
    | vMap m => simp [Except.map]
  · simp only [hpat, if_false]
    by_cases henum : (hasField attr "enum" && !isListVal (getD attr "enum" .vNull)) = true <;>
      simp [henum, Except.map, vappend_addError]

/-- Helper for C9: the type-specific checks treat the finding lists as a
write-only log. -/
theorem stateFree_validate_type_specific (name : Value) (attr : Attr) :
    StateFree (validate_type_specific name attr) := by
  have tail := sf_string_tail name attr
  intro s t
  unfold validate_type_specific
  by_cases ht1 : eqStr (getD attr "type" .vNull) "string" = true
  · simp only [ht1, if_true]
    by_cases hmm : (hasField attr "min_length" && hasField attr "max_length") = true
    · simp only [hmm, if_true]
      cases pyGT (getD attr "min_length" .vNull) (getD attr "max_length" .vNull) with
      | none => simp [Except.map]
      | some b =>
        cases b
        · exact tail s t
        · rw [vappend_addError]
          exact tail s (t.addError ("Attribute " ++ pyStr name ++ " has min_length (" ++
            pyStr (getD attr "min_length" .vNull) ++ ") greater than max_length (" ++
            pyStr (getD attr "max_length" .vNull) ++ ")"))
    · simp only [hmm, if_false]
      exact tail s t
  · simp only [ht1, if_false]
    by_cases ht2 : eqStr (getD attr "type" .vNull) "array" = true
    · simp only [ht2, if_true]
      by_cases hat : hasField attr "array_type" = true <;>
        by_cases hae : (hasField attr "array_enum"
            && !isListVal (getD attr "array_enum" .vNull)) = true <;>
          simp [hat, hae, Except.map, vappend_addError]
    · simp only [ht2, if_false]
      by_cases ht3 : eqStr (getD attr "type" .vNull) "boolean" = true
      · simp [ht3, Except.map, stringPropWarnLoop_vappend]
      · simp only [ht3, if_false]
        by_cases ht4 : (eqStr (getD attr "type" .vNull) "number"
            || eqStr (getD attr "type" .vNull) "integer") = true <;>
          simp [ht4, Except.map, stringPropWarnLoop_vappend]

/-- Helper for C9: the best-practice checks treat the finding lists as a
write-only log. -/
theorem stateFree_check_best_practices (name : Value) (attr : Attr) :
    StateFree (check_best_practices name attr) := by
  intro s t
  unfold check_best_practices
  cases name with
  | vStr nm =>
    by_cases h1 : hasField attr "description" = true <;>
      by_cases h2 : hasField attr "display_name" = true <;>
        by_cases h3 : (eqStr (getD attr "master" .vNull) "OVERRIDE"
            && !hasField attr "master_override_priority") = true <;>
          by_cases h4 : (sensitiveSubstrings.any
              (fun p => charsContains p.data (nm.data.map lowerChar))
              && !eqStr (getD attr "permissions" .vNull) "HIDE") = true <;>
            by_cases h5 : ((eqStr (getD attr "type" .vNull) "array"
                || eqStr (getD attr "type" .vNull) "object")
                && truthy (getD attr "unique" .vNull)) = true <;>
              simp [h1, h2, h3, h4, h5, Except.map, vappend_addError,
                vappend_addWarning, vappend_addInfo]
  | vNull =>
    by_cases h1 : hasField attr "description" = true <;>
      by_cases h2 : hasField attr "display_name" = true <;>
        by_cases h3 : (eqStr (getD attr "master" .vNull) "OVERRIDE"
            && !hasField attr "master_override_priority") = true <;>
          simp [h1, h2, h3, Except.map, vappend_addError, vappend_addWarning,
            vappend_addInfo]
  | vBool b =>
    by_cases h1 : hasField attr "description" = true <;>
      by_cases h2 : hasField attr "display_name" = true <;>
        by_cases h3 : (eqStr (getD attr "master" .vNull) "OVERRIDE"
            && !hasField attr "master_override_priority") = true <;>
          simp [h1, h2, h3, Except.map, vappend_addError, vappend_addWarning,
            vappend_addInfo]
  | vInt n =>
    by_cases h1 : hasField attr "description" = true <;>
      by_cases h2 : hasField attr "display_name" = true <;>
        by_cases h3 : (eqStr (getD attr "master" .vNull) "OVERRIDE"
            && !hasField attr "master_override_priority") = true <;>
          simp [h1, h2, h3, Except.map, vappend_addError, vappend_addWarning,
            vappend_addInfo]
  | vList l =>
    by_cases h1 : hasField attr "description" = true <;>
      by_cases h2 : hasField attr "display_name" = true <;>
        by_cases h3 : (eqStr (getD attr "master" .vNull) "OVERRIDE"
            && !hasField attr "master_override_priority") = true <;>
          simp [h1, h2, h3, Except.map, vappend_addError, vappend_addWarning,
            vappend_addInfo]
  | vMap m =>
    by_cases h1 : hasField attr "description" = true <;>
      by_cases h2 : hasField attr "display_name" = true <;>
        by_cases h3 : (eqStr (getD attr "master" .vNull) "OVERRIDE"
            && !hasField attr "master_override_priority") = true <;>
          simp [h1, h2, h3, Except.map, vappend_addError, vappend_addWarning,
            vappend_addInfo]

/-- Helper for C9: sequencing two state-free steps with Python exception
propagation is state-free. -/
theorem stateFree_seq (f g : VState → Except String VState)
    (hf : StateFree f) (hg : StateFree g) :
    StateFree (fun u => match f u with
      | Except.error e => Except.error e
      | Except.ok u2 => g u2) := by
  intro s t
  dsimp only
  rw [hf s t]
  cases f t with
  | error e => simp [Except.map]
  | ok d => simp only [Except.map]; exact hg s d

/-- Helper for C9: the catalog/type-specific/best-practice tail of
`validate_attribute` is state-free. -/
theorem sf_va_tail (attr : Attr) : StateFree (fun u =>
    match checkCatalogField attr "master" VALID_MASTERS
        (masterMsg (getD attr "name" (.vStr "unknown"))) u with
    | Except.error e => Except.error e
    | Except.ok u =>
      match checkCatalogField attr "permissions" VALID_PERMISSIONS
          (permsMsg (getD attr "name" (.vStr "unknown"))) u with
      | Except.error e => Except.error e
      | Except.ok u =>
        match checkCatalogField attr "scope" VALID_SCOPES
            (scopeMsg (getD attr "name" (.vStr "unknown"))) u with
        | Except.error e => Except.error e
        | Except.ok u =>
          match checkCatalogField attr "unique" VALID_UNIQUE
              (uniqueMsg (getD attr "name" (.vStr "unknown"))) u with
          | Except.error e => Except.error e
          | Except.ok u =>
            match validate_type_specific (getD attr "name" (.vStr "unknown")) attr u with
            | Except.error e => Except.error e
            | Except.ok u => check_best_practices (getD attr "name" (.vStr "unknown")) attr u) :=
  stateFree_seq _ _ (stateFree_checkCatalogField attr "master" VALID_MASTERS _)
    (stateFree_seq _ _ (stateFree_checkCatalogField attr "permissions" VALID_PERMISSIONS _)
      (stateFree_seq _ _ (stateFree_checkCatalogField attr "scope" VALID_SCOPES _)
        (stateFree_seq _ _ (stateFree_checkCatalogField attr "unique" VALID_UNIQUE _)
          (stateFree_seq _ _
            (stateFree_validate_type_specific (getD attr "name" (.vStr "unknown")) attr)
            (stateFree_check_best_practices (getD attr "name" (.vStr "unknown")) attr)))))

/-- Helper for C9: the Attribute Evaluator treats the finding lists as a
write-only log: run after prior findings, it appends exactly what it would
append from a fresh validator, and raises exactly when it would raise. -/
theorem stateFree_validate_attribute (attr : Attr) :
    StateFree (validate_attribute attr) := by
  intro s t
  unfold validate_attribute
  by_cases hn : hasField attr "name" = true
  · by_cases ht : hasField attr "type" = true
    · simp only [hn, ht, Bool.not_true, Bool.false_eq_true, if_false]
      rw [stateFree_validate_attribute_name (getD attr "name" (.vStr "unknown")) s t]
      cases hv1 : validate_attribute_name (getD attr "name" (.vStr "unknown")) t with
      | error e => simp [Except.map]
      | ok d1 =>
        simp only [Except.map]
        cases pyInStrSet (getD attr "type" .vNull) VALID_TYPES with
        | error e => simp [Except.map]
        | ok tOk =>
          cases tOk
          · simp only [Bool.false_eq_true, if_false]
            rw [vappend_addError]
            exact sf_va_tail attr s (d1.addError _)
          · simp only [if_true]
            exact sf_va_tail attr s d1
    · simp [hn, ht, Except.map, vappend_addError]
  · simp [hn, Except.map, vappend_addError]

/-- Helper for C9: likewise for the evaluator run over a record list. -/
theorem stateFree_validate_attribute_list (attrs : List Attr) :
    StateFree (validate_attribute_list attrs) := by
  induction attrs with
  | nil => intro s t; simp [validate_attribute_list, Except.map]
  | cons a rest ih =>
    intro s t
    unfold validate_attribute_list
    rw [stateFree_validate_attribute a s t]
    cases validate_attribute a t with
    | error e => simp [Except.map]
    | ok d => simp only [Except.map]; exact ih s d

/-- C9: the evaluator is deterministic and idempotent: when the first pass
over a record set from a fresh validator yields the finding lists s1, a
second pass over the same unmodified record set appends exactly the same
ordered finding sequence again (final state s1 ++ s1). -/
theorem c9_idempotent (attrs : List Attr) (s1 : VState)
    (h : validate_attribute_list attrs vEmpty = .ok s1) :
    validate_attribute_list attrs s1 = .ok (vappend s1 s1) := by
  have hsf := stateFree_validate_attribute_list attrs s1 vEmpty
  rw [vappend_vEmpty] at hsf
  rw [hsf, h]
  simp [Except.map]

/-- C9 witness: two passes over a one-record set append identical finding
sequences. -/
theorem c9_idempotent_witness :
    validate_attribute_list c9recs c9state = .ok (vappend c9state c9state) :=
  c9_idempotent c9recs c9state (by rfl)

/-- Helper for C8: the backtracking matcher for `[a-z0-9_]{1,49}$` accepts
from a position with k characters already consumed exactly when some
further word-character run m keeps the quantifier in bounds and lands on a
position where `$` holds. -/
theorem reNameTail_iff (cs : List Char) : ∀ (k : Nat), k ≤ 49 →
    (reNameTail cs k = true ↔
      ∃ m, m ≤ cs.length ∧ ((cs.take m).all isWordCh) = true ∧
        1 ≤ k + m ∧ k + m ≤ 49 ∧ dollarOk (cs.drop m) = true) := by
  induction cs with
  | nil =>
    intro k hk
    constructor
    · intro h
      have h1 : 1 ≤ k := by
        unfold reNameTail at h
        simp only [dollarOk, Bool.and_true, Bool.or_false, decide_eq_true_eq] at h
        exact h
      exact ⟨0, Nat.le_refl 0, rfl, by omega, by omega, rfl⟩
    · rintro ⟨m, hm, -, h1, -, -⟩
      have hm0 : m = 0 := Nat.le_zero.mp hm
      subst hm0
      unfold reNameTail
      simp only [dollarOk, Bool.and_true, Bool.or_false, decide_eq_true_eq]
      omega
  | cons c rest ih =>
    intro k hk
    constructor
    · intro h
      unfold reNameTail at h
      rcases Bool.or_eq_true_iff.mp h with h | h
      · obtain ⟨h1, h2⟩ : 1 ≤ k ∧ dollarOk (c :: rest) = true := by simpa using h
        exact ⟨0, by simp, rfl, by omega, by omega, by simpa using h2⟩
      · obtain ⟨⟨hlt, hw⟩, hrec⟩ :
            (k < 49 ∧ isWordCh c = true) ∧ reNameTail rest (k + 1) = true := by
          simpa using h
        obtain ⟨m, hm, hall, hge, hle, hd⟩ := (ih (k + 1) (by omega)).mp hrec
        refine ⟨m + 1, by simpa using Nat.succ_le_succ hm, ?_, by omega, by omega, ?_⟩
        · simpa [List.all_cons, hw] using hall
        · simpa using hd
    · rintro ⟨m, hm, hall, hge, hle, hd⟩
      unfold reNameTail
      apply Bool.or_eq_true_iff.mpr
      cases m with
      | zero =>
        left
        simp only [Bool.and_eq_true, decide_eq_true_eq]
        exact ⟨by omega, by simpa using hd⟩
      | succ mm =>
        right
        have hw : isWordCh c = true := by
          simp only [List.take, List.all_cons, Bool.and_eq_true] at hall
          exact hall.1
        have hall2 : ((rest.take mm).all isWordCh) = true := by
          simp only [List.take, List.all_cons, Bool.and_eq_true] at hall
          exact hall.2
        have hrec : reNameTail rest (k + 1) = true :=
          (ih (k + 1) (by omega)).mpr
            ⟨mm, by simpa using hm, hall2, by omega, by omega, by simpa using hd⟩
        simp only [Bool.and_eq_true, decide_eq_true_eq]
        exact ⟨⟨by omega, hw⟩, hrec⟩

/-- Helper for C8: closed form of Python re.match on the naming pattern: a
name is accepted exactly when it matches the pattern as the spec words it,
or is such a match followed by one trailing newline (the Python `$`
quirk). -/
theorem pyNameMatch_closed (s : String) :
    pyNameMatch s = (specNameMatchL s.data
      || ((s.data.getLast? == some nlChar) && specNameMatchL s.data.dropLast)) := by
  rcases s with ⟨cs⟩
  cases cs with
  | nil => rfl
  | cons c rest =>
    apply Bool.eq_iff_iff.mpr
    constructor
    · intro h
      obtain ⟨hlc, hrt⟩ : isLowerAZ c = true ∧ reNameTail rest 0 = true := by
        simpa [pyNameMatch] using h
      obtain ⟨m, hm, hall, hge, hle, hd⟩ := (reNameTail_iff rest 0 (by omega)).mp hrt
      rcases hdrop : rest.drop m with - | ⟨x, xs⟩
      · have hml : rest.length ≤ m := List.drop_eq_nil_iff.mp hdrop
        have hmeq : m = rest.length := le_antisymm hm hml
        subst hmeq
        apply Bool.or_eq_true_iff.mpr
        left
        rw [List.take_length] at hall
        simp only [specNameMatchL, hlc, hall, Bool.true_and, Bool.and_true,
          Bool.and_eq_true, decide_eq_true_eq]
        omega
      · have hxs : xs = [] ∧ x = nlChar := by
          cases xs with
          | nil =>
            rw [hdrop] at hd
            simp only [dollarOk, beq_iff_eq] at hd
            exact ⟨rfl, hd⟩
          | cons y ys =>
            rw [hdrop] at hd
            simp [dollarOk] at hd
        obtain ⟨hxs0, hxnl⟩ := hxs
        subst hxs0
        subst hxnl
        have hlen : rest.length = m + 1 := by
          have h1 : (rest.drop m).length = rest.length - m := List.length_drop m rest
          rw [hdrop] at h1
          simp at h1
          omega
        have hsplit : rest.take m ++ [nlChar] = rest := by
          have := List.take_append_drop m rest
          rw [hdrop] at this
          exact this
        apply Bool.or_eq_true_iff.mpr
        right
        have hcrest : c :: rest = (c :: rest.take m) ++ [nlChar] := by
          rw [List.cons_append, hsplit]
        rw [hcrest, List.getLast?_concat, List.dropLast_concat]
        have htklen : (rest.take m).length = m := by
          rw [List.length_take]
          omega
        simp only [beq_self_eq_true, Bool.true_and, specNameMatchL, hlc, hall,
          Bool.true_and, Bool.and_true, Bool.and_eq_true, decide_eq_true_eq, htklen]
        omega
    · intro h
      rcases Bool.or_eq_true_iff.mp h with h | h
      · simp only [specNameMatchL, Bool.and_eq_true, decide_eq_true_eq] at h
        obtain ⟨⟨⟨hlc, hb1⟩, hb2⟩, hall⟩ := h
        show (isLowerAZ c && reNameTail rest 0) = true
        simp only [hlc, Bool.true_and]
        apply (reNameTail_iff rest 0 (by omega)).mpr
        refine ⟨rest.length, Nat.le_refl _, ?_, by omega, by omega, ?_⟩
        · rw [List.take_length]; exact hall
        · simp [List.drop_eq_nil_iff.mpr (Nat.le_refl _), dollarOk]
      · simp only [Bool.and_eq_true] at h
        obtain ⟨hlast, hspec⟩ := h
        cases rest with
        | nil => simp [specNameMatchL, List.dropLast] at hspec
        | cons r rs =>
          rw [List.dropLast_cons₂] at hspec
          simp only [specNameMatchL, Bool.and_eq_true, decide_eq_true_eq] at hspec
          obtain ⟨⟨⟨hlc, hb1⟩, hb2⟩, hall⟩ := hspec
          have hlastr : (r :: rs).getLast? = some nlChar := by
            rw [List.getLast?_cons_cons] at hlast
            exact beq_iff_eq.mp hlast
          have hsplit : (r :: rs).dropLast ++ [nlChar] = r :: rs :=
            List.dropLast_append_getLast? nlChar hlastr
          have hdl : (r :: rs).dropLast.length = (r :: rs).length - 1 :=
            List.length_dropLast (r :: rs)
          show (isLowerAZ c && reNameTail (r :: rs) 0) = true
          simp only [hlc, Bool.true_and]
          apply (reNameTail_iff (r :: rs) 0 (by omega)).mpr
          refine ⟨(r :: rs).dropLast.length, by simp, ?_, by omega, by omega, ?_⟩
          · have htk : List.take ((r :: rs).dropLast.length) (r :: rs) =
                (r :: rs).dropLast := by
              rw [hdl, ← List.dropLast_eq_take]
            rw [htk]
            exact hall
          · rw [← hsplit, List.dropLast_concat, List.drop_left]
            simp [dollarOk]

/-- C8 counterexample: the name "ab\n" does not match the pattern
`^[a-z][a-z0-9_]{1,49}$` read as the spec words it (it contains a
newline), yet the evaluator records no Finding at all for it — Python
re.match accepts `$` before a single trailing newline, so no
naming-convention ERROR is produced. -/
theorem c8_trailing_newline_counterexample :
    specNameMatch c8nameNl = false ∧
    validate_attribute_name (.vStr c8nameNl) vEmpty = .ok vEmpty :=
  ⟨by rfl, by rfl⟩

/-- C8 (amended): the name check appends a naming-convention ERROR exactly
when Python re.match rejects the name, and Python re.match accepts exactly
the names matching the spec pattern PLUS those consisting of a matching
name followed by one trailing newline; in particular every name matching
the pattern produces no naming-convention ERROR (reserved-name and
underscore WARNINGs being independent), and every non-matching name except
the trailing-newline ones produces the ERROR. -/
theorem c8_naming_convention (nm : String) (s : VState) :
    resultErrors (validate_attribute_name (.vStr nm) s) =
      s.errors ++ (if pyNameMatch nm then [] else [namingMsg nm]) ∧
    pyNameMatch nm = (specNameMatch nm
      || ((nm.data.getLast? == some nlChar) && specNameMatchL nm.data.dropLast)) := by
  constructor
  · unfold validate_attribute_name
    have hres : pyInStrSet (.vStr nm) RESERVED_ATTRIBUTES =
        .ok (RESERVED_ATTRIBUTES.any fun c => eqStr (.vStr nm) c) := rfl
    rw [hres]
    dsimp only
    by_cases h1 : (RESERVED_ATTRIBUTES.any fun c => eqStr (Value.vStr nm) c) = true <;>
      by_cases h2 : pyNameMatch nm = true <;>
        by_cases h3 : (startsWithCh '_' nm || endsWithCh '_' nm) = true <;>
          by_cases h4 : charsContains ['_', '_'] nm.data = true <;>
            simp [h1, h2, h3, h4, resultErrors, VState.addError, VState.addWarning]
  · exact pyNameMatch_closed nm
